import Mathlib

/-
Verification of the simple-eri-test-server repository (a FastAPI "External
Retrieval Interface" RAG server) against its design specification.

The Python sources under src/rag-test/src are shallowly embedded below:
  - security.py  : sanitize_input, validate_request_security, security headers
  - auth.py      : JWT issue/verify, static-token and password authentication
  - user_store.py: persistent username -> password dictionary
  - database.py  : vector store clear and similarity search
  - retrieval.py : retrieval orchestration (k resolution, Context mapping)
  - api.py       : the retrieve endpoint and its validation order
  - main.py      : the middleware stack (security validation, header stamping)

Python strings are modelled as Lean String where only equality matters, and as
List Char where character-level rewriting matters (sanitize_input and the user
prompt). Python dicts whose keys are strings are modelled as association lists
with dict update semantics (replace in place, else append). Module-level
configuration globals (the static token allow-list, the user store contents)
are passed as explicit parameters; config.py instantiates them with the empty
dict. The HS256 signature is modelled symbolically: the signature of a token
is the pair of the signing key and the signed payload (ideal MAC).
-/

/-! ## security.py: SecurityManager.sanitize_input -/

/-- The denylist of SecurityManager.sanitize_input in src/security.py, by
character code: less-than 60, greater-than 62, open brace 123, close brace 125,
open paren 40, close paren 41, semicolon 59, ampersand 38, vertical bar 124,
apostrophe 39, double quote 34. -/
def dangerous_chars : List Char :=
  [Char.ofNat 60, Char.ofNat 62, Char.ofNat 123, Char.ofNat 125,
   Char.ofNat 40, Char.ofNat 41, Char.ofNat 59, Char.ofNat 38,
   Char.ofNat 124, Char.ofNat 39, Char.ofNat 34]

/-- One pass of sanitize_input: Python str.replace with the empty replacement
removes every occurrence of the character. -/
def removeChar (s : List Char) (c : Char) : List Char :=
  s.filter (fun a => a != c)

/-- SecurityManager.sanitize_input (src/security.py lines 106-123): removes
each denylisted character from the input in turn. -/
def sanitize_input (s : List Char) : List Char :=
  dangerous_chars.foldl removeChar s

theorem foldl_removeChar_eq_filter (l s : List Char) :
    l.foldl removeChar s = s.filter (fun a => !(l.contains a)) := by
  induction l generalizing s with
  | nil => simp
  | cons c l ih =>
    simp only [List.foldl_cons]
    rw [ih, removeChar, List.filter_filter]
    have hfun : (fun a => (!(l.contains a)) && (a != c))
        = (fun a => !((c :: l).contains a)) := by
      funext a
      by_cases h : a = c <;>
        simp [List.contains_cons, Bool.not_or, bne, Bool.and_comm, h]
    rw [hfun]

theorem sanitize_input_eq_filter (s : List Char) :
    sanitize_input s = s.filter (fun a => !(dangerous_chars.contains a)) :=
  foldl_removeChar_eq_filter dangerous_chars s

/-- Claim C1: for every input string, none of the denylisted characters
appear in the output of sanitize_input, and sanitize_input is idempotent. -/
theorem sanitize_input_denylist_free_and_idempotent (s : List Char) (c : Char) :
    (c ∈ dangerous_chars → c ∉ sanitize_input s) ∧
    sanitize_input (sanitize_input s) = sanitize_input s := by
  constructor
  · intro hc hmem
    rw [sanitize_input_eq_filter, List.mem_filter] at hmem
    have hcontains : dangerous_chars.contains c = true :=
      List.elem_eq_true_of_mem hc
    rw [hcontains] at hmem
    simpa using hmem.2
  · rw [sanitize_input_eq_filter, sanitize_input_eq_filter, List.filter_filter]
    have hfun : (fun a => (!(dangerous_chars.contains a))
          && (!(dangerous_chars.contains a)))
        = (fun a => !(dangerous_chars.contains a)) := by
      funext a
      cases h : dangerous_chars.contains a <;> simp [h]
    rw [hfun]

/-- Witness for Claim C1 at a concrete input: the less-than sign is
denylisted and is absent from the sanitized form of the two-character
input consisting of the letter a followed by less-than. -/
theorem sanitize_input_denylist_free_witness :
    Char.ofNat 60 ∉ sanitize_input [Char.ofNat 97, Char.ofNat 60] :=
  (sanitize_input_denylist_free_and_idempotent
    [Char.ofNat 97, Char.ofNat 60] (Char.ofNat 60)).1 (by decide)

/-! ## config.py and auth.py: the token service -/

/-- SECRET_KEY (src/config.py line 10). -/
def SECRET_KEY : String := "your-secret-key-here"

/-- ACCESS_TOKEN_EXPIRE_MINUTES (src/config.py line 14). -/
def ACCESS_TOKEN_EXPIRE_MINUTES : Nat := 180

/-- The JWT payload as built by create_access_token: the sub claim and the
exp claim (seconds since the epoch). -/
structure Payload where
  sub : Option String
  exp : Nat
deriving DecidableEq

/-- A symbolic HS256 JWT: the signature is modelled as the pair of the
signing key and the signed payload (ideal MAC, no collisions). -/
structure JWToken where
  payload : Payload
  sig : String × Payload
deriving DecidableEq

/-- jose jwt.encode: attach the signature computed from key and payload. -/
def jwt_encode (key : String) (p : Payload) : JWToken :=
  ⟨p, (key, p)⟩

/-- jose jwt.decode as used by verify_token: check the signature against the
given key, then reject the token when the embedded expiry is strictly in the
past (jose raises ExpiredSignatureError exactly when exp is less than the
current time, with zero leeway). Any failure is a JWTError, here none. -/
def jwt_decode (key : String) (tok : JWToken) (now : Nat) : Option Payload :=
  if tok.sig = (key, tok.payload) then
    if tok.payload.exp < now then none else some tok.payload
  else none

/-- TokenData (src/models.py). -/
structure TokenData where
  username : Option String
deriving DecidableEq

/-- create_access_token (src/auth.py lines 22-43) applied to a payload
carrying a sub claim: expiry is issue time plus the given lifetime in
seconds, and the token is signed with SECRET_KEY. -/
def create_access_token (sub : String) (expires_delta : Nat) (now : Nat) :
    JWToken :=
  jwt_encode SECRET_KEY ⟨some sub, now + expires_delta⟩

/-- verify_token (src/auth.py lines 46-72): decode with SECRET_KEY; any
JWTError, and a missing sub claim, raise the 401 credentials exception,
modelled as the error value 401. -/
def verify_token (tok : JWToken) (now : Nat) : Except Nat TokenData :=
  match jwt_decode SECRET_KEY tok now with
  | none => .error 401
  | some p =>
    match p.sub with
    | none => .error 401
    | some u => .ok ⟨some u⟩

/-- Claim C2: a token created for subject s with lifetime T verifies to
TokenData with username s at any time before issuance plus T, is rejected
with 401 at any time strictly after issuance plus T, and a token signed
with any key other than SECRET_KEY always fails verification. -/
theorem token_lifecycle (s : String) (T now t : Nat) :
    (t < now + T →
      verify_token (create_access_token s T now) t = .ok ⟨some s⟩) ∧
    (now + T < t →
      verify_token (create_access_token s T now) t = .error 401) ∧
    (∀ key p, key ≠ SECRET_KEY →
      verify_token (jwt_encode key p) t = .error 401) := by
  refine ⟨?_, ?_, ?_⟩
  · intro h
    have hnot : ¬ (now + T < t) := by omega
    simp [verify_token, create_access_token, jwt_encode, jwt_decode, hnot]
  · intro h
    simp [verify_token, create_access_token, jwt_encode, jwt_decode, h]
  · intro key p hk
    have hsig : ((key, p) : String × Payload) ≠ (SECRET_KEY, p) := by
      intro hE
      exact hk (congrArg Prod.fst hE)
    simp [verify_token, jwt_encode, jwt_decode, hsig]

/-- Witness for Claim C2 at concrete inputs: a token for alice with a
100-second lifetime issued at time 0 verifies at time 50, fails at
time 101, and a token signed with a different key fails at time 0. -/
theorem token_lifecycle_witness :
    verify_token (create_access_token "alice" 100 0) 50 = .ok ⟨some "alice"⟩ ∧
    verify_token (create_access_token "alice" 100 0) 101 = .error 401 ∧
    verify_token (jwt_encode "other-key" ⟨some "alice", 100⟩) 0 = .error 401 :=
  ⟨(token_lifecycle "alice" 100 0 50).1 (by decide),
   (token_lifecycle "alice" 100 0 101).2.1 (by decide),
   (token_lifecycle "alice" 100 0 0).2.2 "other-key" ⟨some "alice", 100⟩
     (by decide)⟩

/-! ## Python dict semantics for string-keyed dicts -/

/-- Python dict update over an association list: if the key is present its
first binding is overwritten in place (every binding of that key, though a
dict built by updates never holds duplicates), otherwise the pair is appended
in insertion order. -/
def dict_set (m : List (String × String)) (k v : String) :
    List (String × String) :=
  if m.any (fun kv => kv.1 == k) then
    m.map (fun kv => if kv.1 == k then (k, v) else kv)
  else m ++ [(k, v)]

/-- Python dict.get over an association list. -/
def dict_get (m : List (String × String)) (k : String) : Option String :=
  (m.find? (fun kv => kv.1 == k)).map (fun kv => kv.2)

theorem find?_key_cons_of_eq (a : String × String)
    (l : List (String × String)) (k : String) (h : a.1 = k) :
    List.find? (fun kv => kv.1 == k) (a :: l) = some a :=
  List.find?_cons_of_pos l (by simpa using h)

theorem find?_key_cons_of_ne (a : String × String)
    (l : List (String × String)) (k : String) (h : a.1 ≠ k) :
    List.find? (fun kv => kv.1 == k) (a :: l)
      = List.find? (fun kv => kv.1 == k) l :=
  List.find?_cons_of_neg l (by simpa using h)

theorem dict_get_set_self (m : List (String × String)) (k v : String) :
    dict_get (dict_set m k v) k = some v := by
  rw [dict_set]
  by_cases h : m.any (fun kv => kv.1 == k)
  · rw [if_pos h, dict_get]
    induction m with
    | nil => simp at h
    | cons a m ih =>
      by_cases hak : a.1 = k
      · simp [hak]
      · have h' : m.any (fun kv => kv.1 == k) := by
          simpa [List.any_cons, hak] using h
        simpa [hak] using ih h'
  · rw [if_neg h, dict_get]
    have hnone : m.find? (fun kv => kv.1 == k) = none := by
      rw [List.find?_eq_none]
      intro x hx hpx
      exact h (List.any_of_mem hx hpx)
    simp [List.find?_append, hnone]

theorem dict_get_set_ne (m : List (String × String)) (k v k' : String)
    (hne : k' ≠ k) : dict_get (dict_set m k v) k' = dict_get m k' := by
  rw [dict_set]
  by_cases h : m.any (fun kv => kv.1 == k)
  · rw [if_pos h, dict_get, dict_get]
    clear h
    induction m with
    | nil => simp
    | cons a m ih =>
      rw [List.map_cons]
      by_cases hak : a.1 = k
      · have hstep : (if a.1 == k then (k, v) else a)
            = ((k, v) : String × String) := by
          simp [hak]
        rw [hstep, find?_key_cons_of_ne (k, v) _ k' (Ne.symm hne),
          find?_key_cons_of_ne a m k' (fun hc => (Ne.symm hne) (hak ▸ hc)),
          ih]
      · have hstep : (if a.1 == k then (k, v) else a) = a := by
          simp [hak]
        rw [hstep]
        by_cases hk' : a.1 = k'
        · rw [find?_key_cons_of_eq a _ k' hk', find?_key_cons_of_eq a m k' hk']
        · rw [find?_key_cons_of_ne a _ k' hk',
            find?_key_cons_of_ne a m k' hk', ih]
  · rw [if_neg h, dict_get, dict_get, List.find?_append]
    have hsingle :
        List.find? (fun kv => kv.1 == k') [((k, v) : String × String)]
          = none := by
      rw [find?_key_cons_of_ne (k, v) [] k' (Ne.symm hne)]
      rfl
    rw [hsingle]
    cases m.find? (fun kv => kv.1 == k') <;> rfl

/-! ## user_store.py -/

/-- upsert_user (src/user_store.py lines 40-45): users[username] = password,
persisted; the stored dict is the explicit state here. -/
def upsert_user (users : List (String × String)) (username password : String) :
    List (String × String) :=
  dict_set users username password

/-- get_password (src/user_store.py lines 48-52): users.get(username). -/
def get_password (users : List (String × String)) (username : String) :
    Option String :=
  dict_get users username

/-- Claim C10: after upsert_user, get_password on the upserted username
returns the new password, every other username reads as before, and no
existing entry is removed. -/
theorem upsert_user_get_password (users : List (String × String))
    (u p v w x : String) :
    get_password (upsert_user users u p) u = some p ∧
    (v ≠ u → get_password (upsert_user users u p) v = get_password users v) ∧
    (get_password users w = some x →
      ∃ y, get_password (upsert_user users u p) w = some y) := by
  refine ⟨dict_get_set_self users u p, fun hv => dict_get_set_ne users u p v hv,
    fun hw => ?_⟩
  by_cases hwu : w = u
  · subst hwu
    exact ⟨p, dict_get_set_self users w p⟩
  · refine ⟨x, ?_⟩
    show dict_get (dict_set users u p) w = some x
    rw [dict_get_set_ne users u p w hwu]
    exact hw

/-- Witness for Claim C10 at a concrete store: upserting alice leaves the
entry for bob untouched and keeps it present. -/
theorem upsert_user_get_password_witness :
    get_password (upsert_user [("bob", "b1")] "alice" "a1") "bob"
      = get_password [("bob", "b1")] "bob" ∧
    ∃ y, get_password (upsert_user [("bob", "b1")] "alice" "a1") "bob"
      = some y :=
  ⟨(upsert_user_get_password [("bob", "b1")] "alice" "a1" "bob" "bob" "b1").2.1
      (by decide),
   (upsert_user_get_password [("bob", "b1")] "alice" "a1" "bob" "bob" "b1").2.2
      (by decide)⟩

/-! ## auth.py: the two authentication variants -/

/-- AuthResponse (src/models.py): the uniform outer result shape of both
authentication variants. -/
structure AuthResponse where
  success : Bool
  token : Option JWToken
  message : Option String
deriving DecidableEq

/-- authenticate_user (src/auth.py lines 109-131): the presented secret is
compared against the values of the static allow-list in order, the first
match wins and yields a fresh session token for the matched subject; no
match yields the single fixed failure response. -/
def authenticate_user (staticTokens : List (String × String)) (now : Nat)
    (token : String) : AuthResponse :=
  match staticTokens.find? (fun kv => token == kv.2) with
  | some kv =>
    ⟨true,
     some (create_access_token kv.1 (ACCESS_TOKEN_EXPIRE_MINUTES * 60) now),
     some "Authentication successful"⟩
  | none => ⟨false, none, some "Invalid token"⟩

/-- authenticate_user_password (src/auth.py lines 177-191): look up the
stored password; plaintext equality decides success; both the unknown-user
case and the wrong-password case fall through to the same fixed failure
response. -/
def authenticate_user_password (users : List (String × String)) (now : Nat)
    (user password : String) : AuthResponse :=
  match get_password users user with
  | some stored =>
    if stored = password then
      ⟨true,
       some (create_access_token user (ACCESS_TOKEN_EXPIRE_MINUTES * 60) now),
       some "Authentication successful"⟩
    else ⟨false, none, some "Invalid username or password"⟩
  | none => ⟨false, none, some "Invalid username or password"⟩

/-- Claim C6: both variants return the uniform AuthResponse shape; within
the password variant an unknown username and a wrong password produce
identical responses, and within the static variant any unmatched secret
yields the single uniform failure message. -/
theorem auth_failure_uniform (users staticTokens : List (String × String))
    (now : Nat) (u1 p1 u2 p2 pw t : String)
    (h1 : get_password users u1 = none)
    (h2 : get_password users u2 = some pw) (h3 : pw ≠ p2)
    (h4 : ∀ kv ∈ staticTokens, kv.2 ≠ t) :
    authenticate_user_password users now u1 p1
      = ⟨false, none, some "Invalid username or password"⟩ ∧
    authenticate_user_password users now u2 p2
      = ⟨false, none, some "Invalid username or password"⟩ ∧
    authenticate_user_password users now u1 p1
      = authenticate_user_password users now u2 p2 ∧
    authenticate_user staticTokens now t
      = ⟨false, none, some "Invalid token"⟩ := by
  have ha : authenticate_user_password users now u1 p1
      = ⟨false, none, some "Invalid username or password"⟩ := by
    simp [authenticate_user_password, h1]
  have hb : authenticate_user_password users now u2 p2
      = ⟨false, none, some "Invalid username or password"⟩ := by
    simp [authenticate_user_password, h2, h3]
  have hfind : staticTokens.find? (fun kv => t == kv.2) = none := by
    rw [List.find?_eq_none]
    intro kv hkv hbe
    exact h4 kv hkv (eq_of_beq hbe).symm
  exact ⟨ha, hb, by rw [ha, hb], by simp [authenticate_user, hfind]⟩

/-- Witness for Claim C6 at a concrete store and allow-list: an unknown
username and a wrong password for a known username give the same response,
and an unmatched static secret gives the uniform failure. -/
theorem auth_failure_uniform_witness :
    authenticate_user_password [("bob", "pw")] 0 "alice" "x"
      = authenticate_user_password [("bob", "pw")] 0 "bob" "wrong" ∧
    authenticate_user [("admin", "sekret")] 0 "other"
      = ⟨false, none, some "Invalid token"⟩ :=
  ⟨(auth_failure_uniform [("bob", "pw")] [("admin", "sekret")] 0
      "alice" "x" "bob" "wrong" "pw" "other"
      (by decide) (by decide) (by decide) (by decide)).2.2.1,
   (auth_failure_uniform [("bob", "pw")] [("admin", "sekret")] 0
      "alice" "x" "bob" "wrong" "pw" "other"
      (by decide) (by decide) (by decide) (by decide)).2.2.2⟩

/-! ## security.py and main.py: the security gateway -/

/-- The inbound request as seen by the gateway: HTTP method, URL path, the
value of the token header when present, and the declared Content-Length
header when present (the body size the gateway can observe before reading
the body). -/
structure Request where
  method : String
  path : String
  token : Option String
  contentLength : Option Nat
deriving DecidableEq

/-- An HTTPException as raised inside the gateway: status code and detail. -/
structure HTTPError where
  status : Nat
  detail : String
deriving DecidableEq

/-- An HTTP response: status code, headers, body. -/
structure Response where
  status : Nat
  headers : List (String × String)
  body : String
deriving DecidableEq

/-- is_static_token (src/auth.py lines 164-174): membership of the presented
value among the values of the static allow-list. The allow-list global
VALID_STATIC_TOKENS (src/config.py line 17, the empty dict by default) is an
explicit parameter. -/
def is_static_token (staticTokens : List (String × String)) (token : String) :
    Bool :=
  staticTokens.any (fun kv => token == kv.2)

/-- SecurityManager.validate_request_security (src/security.py lines 40-70)
together with _validate_request_size (lines 87-104): missing token header is
401, a static token presented as session proof is 401, and only then, when a
Content-Length header is declared and exceeds 10,000,000, the request is 413.
The rate-limit check between the token and size checks is a no-op. -/
def validate_request_security (staticTokens : List (String × String))
    (req : Request) : Option HTTPError :=
  match req.token with
  | none => some ⟨401, "No token provided"⟩
  | some t =>
    if is_static_token staticTokens t then some ⟨401, "Invalid token type"⟩
    else
      match req.contentLength with
      | some n => if n > 10000000 then some ⟨413, "Request too large"⟩ else none
      | none => none

/-- Python str.startswith. -/
def str_startswith (s pre : String) : Bool :=
  pre.data.isPrefixOf s.data

/-- The fixed documentation and health paths exempt from security validation
(src/main.py lines 140-148). -/
def DOC_PATHS : List String :=
  ["/panda", "/redoc", "/openapi.json", "/docs", "/docs/oauth2-redirect",
   "/health", "/"]

/-- The registered HTTPException handler (src/main.py lines 76-83): a JSON
response carrying the status and the detail. It is installed into the
ExceptionMiddleware that Starlette places innermost in the stack, below all
user middleware, so it applies only to HTTPExceptions raised by routing and
endpoints — those are already ordinary responses of the inner handler by
the time the user middlewares see them — and never to exceptions raised by
the user middlewares themselves. -/
def error_response (e : HTTPError) : Response :=
  ⟨e.status, [], e.detail⟩

/-- The registered generic Exception handler (src/main.py lines 86-93),
installed into the outermost ServerErrorMiddleware: an exception escaping
the user middleware stack — in particular an HTTPException raised by the
security-validation middleware, which bypasses the innermost HTTPException
handler — surfaces to the client as this plain 500 response, built without
any of the hardening headers. -/
def general_exception_handler (e : HTTPError) : Response :=
  ⟨500, [], "Internal server error: " ++ e.detail⟩

/-- The validate_request_security middleware (src/main.py lines 114-155):
OPTIONS requests, /auth and /admin prefixes and the documentation paths skip
validation and forward to the inner handler; otherwise a failed validation
raises the HTTPException, which propagates out of the middleware as an
exception (the error value here), and a passing validation forwards to the
inner handler. The inner handler stands for the rest of the stack down to
the routes, including the innermost ExceptionMiddleware, so route-raised
HTTPExceptions are already ordinary responses of the handler. -/
def validate_middleware (staticTokens : List (String × String))
    (handler : Request → Response) (req : Request) :
    Except HTTPError Response :=
  if req.method = "OPTIONS" then .ok (handler req)
  else if str_startswith req.path "/auth" then .ok (handler req)
  else if str_startswith req.path "/admin" then .ok (handler req)
  else if DOC_PATHS.contains req.path then .ok (handler req)
  else
    match validate_request_security staticTokens req with
    | some e => .error e
    | none => .ok (handler req)

/-- SecurityManager.get_security_headers (src/security.py lines 140-161). -/
def get_security_headers : List (String × String) :=
  [("X-Content-Type-Options", "nosniff"),
   ("X-Frame-Options", "DENY"),
   ("X-XSS-Protection", "1; mode=block"),
   ("Strict-Transport-Security", "max-age=31536000; includeSubDomains"),
   ("Content-Security-Policy",
    "default-src \x27self\x27; img-src \x27self\x27 data:; script-src \x27self\x27 \x27unsafe-inline\x27 \x27unsafe-eval\x27 https://unpkg.com; style-src \x27self\x27 \x27unsafe-inline\x27 https://unpkg.com; font-src \x27self\x27 data:;"),
   ("Referrer-Policy", "strict-origin-when-cross-origin")]

/-- Setting one response header (response.headers[name] = value). -/
def set_header (hs : List (String × String)) (n v : String) :
    List (String × String) :=
  dict_set hs n v

/-- Reading one response header. -/
def header_get (hs : List (String × String)) (n : String) : Option String :=
  dict_get hs n

/-- The add_security_headers middleware (src/main.py lines 158-180): stamp
every security header onto the response the inner stack produced; when the
inner stack raises instead, call_next re-raises, so no headers are stamped
and the exception keeps propagating outward past this middleware. -/
def add_security_headers (inner : Request → Except HTTPError Response)
    (req : Request) : Except HTTPError Response :=
  match inner req with
  | .ok r =>
    .ok { r with
      headers :=
        get_security_headers.foldl (fun hs nv => set_header hs nv.1 nv.2)
          r.headers }
  | .error e => .error e

/-- The composed stack of src/main.py: add_security_headers is registered
last, hence outermost among the user middlewares, and above it only the
ServerErrorMiddleware remains, which turns any escaping exception into the
generic 500 response. -/
def app_handle (staticTokens : List (String × String))
    (handler : Request → Response) (req : Request) : Response :=
  match add_security_headers (validate_middleware staticTokens handler) req
  with
  | .ok r => r
  | .error e => general_exception_handler e

theorem header_get_stamp (hs : List (String × String)) (n v : String)
    (h : (n, v) ∈ get_security_headers) :
    header_get
      (get_security_headers.foldl (fun a kv => set_header a kv.1 kv.2) hs) n
      = some v := by
  simp only [get_security_headers, List.foldl_cons, List.foldl_nil,
    set_header, header_get, List.mem_cons, List.not_mem_nil] at h ⊢
  rcases h with h | h | h | h | h | h | h
  all_goals try rw [Prod.mk.injEq] at h
  · rw [dict_get_set_ne _ _ _ _ (by rw [h.1]; decide),
      dict_get_set_ne _ _ _ _ (by rw [h.1]; decide),
      dict_get_set_ne _ _ _ _ (by rw [h.1]; decide),
      dict_get_set_ne _ _ _ _ (by rw [h.1]; decide),
      dict_get_set_ne _ _ _ _ (by rw [h.1]; decide),
      h.1, h.2, dict_get_set_self]
  · rw [dict_get_set_ne _ _ _ _ (by rw [h.1]; decide),
      dict_get_set_ne _ _ _ _ (by rw [h.1]; decide),
      dict_get_set_ne _ _ _ _ (by rw [h.1]; decide),
      dict_get_set_ne _ _ _ _ (by rw [h.1]; decide),
      h.1, h.2, dict_get_set_self]
  · rw [dict_get_set_ne _ _ _ _ (by rw [h.1]; decide),
      dict_get_set_ne _ _ _ _ (by rw [h.1]; decide),
      dict_get_set_ne _ _ _ _ (by rw [h.1]; decide),
      h.1, h.2, dict_get_set_self]
  · rw [dict_get_set_ne _ _ _ _ (by rw [h.1]; decide),
      dict_get_set_ne _ _ _ _ (by rw [h.1]; decide),
      h.1, h.2, dict_get_set_self]
  · rw [dict_get_set_ne _ _ _ _ (by rw [h.1]; decide),
      h.1, h.2, dict_get_set_self]
  · rw [h.1, h.2, dict_get_set_self]
  · exact absurd h (by simp)

/-- Whether the security-validation middleware forwarded the request to
the inner stack (as opposed to raising an exception). -/
def middleware_ok : Except HTTPError Response → Bool
  | .ok _ => true
  | .error _ => false

/-- Counterexample to Claim C4 as stated: the response to a request that
the security-validation middleware rejects (no token header on the
protected retrieval route) is the generic 500 of the outermost error
middleware and carries none of the hardening headers — the exception
bypasses the header-stamping middleware. -/
theorem security_headers_missing_on_rejection :
    header_get
      (app_handle [] (fun _ => ⟨200, [], ""⟩)
        ⟨"POST", "/retrieval", none, none⟩).headers
      "X-Frame-Options" = none ∧
    (app_handle [] (fun _ => ⟨200, [], ""⟩)
      ⟨"POST", "/retrieval", none, none⟩).status = 500 :=
  ⟨rfl, rfl⟩

/-- Claim C4 as amended: every response the inner application produces —
every request the security-validation middleware does not reject, so
exempt routes and requests passing validation, success or route-level
failure alike — carries every header of get_security_headers; a request
that middleware rejects instead surfaces as the generic 500 response of
the outermost error middleware, without these headers. -/
theorem security_headers_on_forwarded_responses
    (staticTokens : List (String × String)) (handler : Request → Response)
    (req : Request) (n v : String) (e : HTTPError) :
    (middleware_ok (validate_middleware staticTokens handler req) = true →
      (n, v) ∈ get_security_headers →
      header_get (app_handle staticTokens handler req).headers n = some v) ∧
    (validate_middleware staticTokens handler req = .error e →
      app_handle staticTokens handler req = general_exception_handler e ∧
      (app_handle staticTokens handler req).headers = []) := by
  constructor
  · intro hok hmem
    cases hv : validate_middleware staticTokens handler req with
    | error e2 =>
      rw [hv] at hok
      simp [middleware_ok] at hok
    | ok r =>
      have happ : app_handle staticTokens handler req
          = { r with
              headers :=
                get_security_headers.foldl
                  (fun hs nv => set_header hs nv.1 nv.2) r.headers } := by
        simp only [app_handle, add_security_headers, hv]
      rw [happ]
      exact header_get_stamp r.headers n v hmem
  · intro herr
    have happ : app_handle staticTokens handler req
        = general_exception_handler e := by
      simp only [app_handle, add_security_headers, herr]
    rw [happ]
    exact ⟨rfl, rfl⟩

/-- Witness for the amended Claim C4: a forwarded request (token header
present on the retrieval route) carries the frame-embedding denial header,
and a rejected no-token request yields exactly the generic 500 response for
the 401 exception the middleware raised. -/
theorem security_headers_on_forwarded_responses_witness :
    header_get
      (app_handle [] (fun _ => ⟨200, [], ""⟩)
        ⟨"POST", "/retrieval", some "tok", none⟩).headers
      "X-Frame-Options" = some "DENY" ∧
    app_handle [] (fun _ => ⟨200, [], ""⟩)
      ⟨"POST", "/retrieval", none, none⟩
      = general_exception_handler ⟨401, "No token provided"⟩ :=
  ⟨(security_headers_on_forwarded_responses [] (fun _ => ⟨200, [], ""⟩)
      ⟨"POST", "/retrieval", some "tok", none⟩ "X-Frame-Options" "DENY"
      ⟨401, "No token provided"⟩).1 (by decide) (by decide),
   ((security_headers_on_forwarded_responses [] (fun _ => ⟨200, [], ""⟩)
      ⟨"POST", "/retrieval", none, none⟩ "X-Frame-Options" "DENY"
      ⟨401, "No token provided"⟩).2 rfl).1⟩

/-- Counterexample to Claim C5 as stated: presenting the static secret
sekret as the token header on the protected retrieval route yields the
observable status 500, not a 401 response — the 401 HTTPException the
middleware raises bypasses the installed handler. -/
theorem static_token_not_rejected_with_401 :
    (app_handle [("alice", "sekret")] (fun _ => ⟨200, [], ""⟩)
      ⟨"POST", "/retrieval", some "sekret", none⟩).status = 500 ∧
    (app_handle [("alice", "sekret")] (fun _ => ⟨200, [], ""⟩)
      ⟨"POST", "/retrieval", some "sekret", none⟩).status ≠ 401 :=
  ⟨rfl, by decide⟩

/-- Claim C5 as amended: on every protected (non-exempt) route, a request
whose token header value is in the static allow-list is rejected before any
handler runs — the security middleware raises the 401-unauthorized
HTTPException, so a static secret is never accepted as standing session
proof — but that exception bypasses the installed HTTPException handler,
and the client observes the generic 500 response rather than 401. -/
theorem static_token_rejected (staticTokens : List (String × String))
    (handler : Request → Response) (req : Request) (t : String)
    (hm : req.method ≠ "OPTIONS")
    (h1 : str_startswith req.path "/auth" = false)
    (h2 : str_startswith req.path "/admin" = false)
    (h3 : DOC_PATHS.contains req.path = false)
    (ht : req.token = some t)
    (hst : is_static_token staticTokens t = true) :
    validate_middleware staticTokens handler req
      = .error ⟨401, "Invalid token type"⟩ ∧
    (app_handle staticTokens handler req).status = 500 := by
  have hv : validate_middleware staticTokens handler req
      = .error ⟨401, "Invalid token type"⟩ := by
    rw [validate_middleware, if_neg hm]
    simp only [h1, h2, h3, Bool.false_eq_true, if_false]
    rw [validate_request_security, ht]
    simp only [hst, if_true]
  refine ⟨hv, ?_⟩
  simp only [app_handle, add_security_headers, hv, general_exception_handler]

/-- Witness for the amended Claim C5 at a concrete allow-list and request:
presenting the static secret sekret on the protected dataSource route
raises the 401 exception in the middleware and surfaces as 500. -/
theorem static_token_rejected_witness :
    (app_handle [("alice", "sekret")] (fun _ => ⟨200, [], ""⟩)
      ⟨"GET", "/dataSource", some "sekret", none⟩).status = 500 :=
  (static_token_rejected [("alice", "sekret")] (fun _ => ⟨200, [], ""⟩)
    ⟨"GET", "/dataSource", some "sekret", none⟩ "sekret"
    (by decide) (by decide) (by decide) (by decide) rfl (by decide)).2

/-- Counterexample to Claim C8 as stated: a request to the protected
retrieval route declaring a body of 10,000,001 bytes is not answered with
the payload-too-large status 413 — even carrying a valid-shape token, the
413 HTTPException the middleware raises bypasses the installed handler and
the observable status is 500 (without a token the middleware raises 401
first, which surfaces as 500 just the same). -/
theorem oversize_not_rejected_with_413 :
    (app_handle [] (fun _ => ⟨200, [], ""⟩)
      ⟨"POST", "/retrieval", some "sometok", some 10000001⟩).status = 500 ∧
    (app_handle [] (fun _ => ⟨200, [], ""⟩)
      ⟨"POST", "/retrieval", some "sometok", some 10000001⟩).status ≠ 413 :=
  ⟨rfl, by decide⟩

/-- Claim C8 as amended: a request to a protected (non-exempt) route that
passes the token checks (token header present and not a static secret) and
declares a Content-Length exceeding 10,000,000 bytes is rejected before the
body reaches any handler: the security middleware raises the
payload-too-large 413 HTTPException — but that exception bypasses the
installed handler, so the client observes the generic 500 response rather
than 413 (a request failing the token checks raises the 401 exception
instead). -/
theorem oversize_request_rejected (staticTokens : List (String × String))
    (handler : Request → Response) (req : Request) (t : String) (n : Nat)
    (hm : req.method ≠ "OPTIONS")
    (h1 : str_startswith req.path "/auth" = false)
    (h2 : str_startswith req.path "/admin" = false)
    (h3 : DOC_PATHS.contains req.path = false)
    (ht : req.token = some t)
    (hst : is_static_token staticTokens t = false)
    (hcl : req.contentLength = some n)
    (hn : 10000000 < n) :
    validate_middleware staticTokens handler req
      = .error ⟨413, "Request too large"⟩ ∧
    (app_handle staticTokens handler req).status = 500 := by
  have hv : validate_middleware staticTokens handler req
      = .error ⟨413, "Request too large"⟩ := by
    rw [validate_middleware, if_neg hm]
    simp only [h1, h2, h3, Bool.false_eq_true, if_false]
    rw [validate_request_security, ht]
    simp only [hst, Bool.false_eq_true, if_false]
    rw [hcl]
    simp only [hn, if_pos]
  refine ⟨hv, ?_⟩
  simp only [app_handle, add_security_headers, hv, general_exception_handler]

/-- Witness for the amended Claim C8 at a concrete request: a valid-shape
token with a declared Content-Length of 20,000,000 bytes on the retrieval
route raises the 413 exception in the middleware and surfaces as 500. -/
theorem oversize_request_rejected_witness :
    (app_handle [] (fun _ => ⟨200, [], ""⟩)
      ⟨"POST", "/retrieval", some "sometok2", some 20000000⟩).status = 500 :=
  (oversize_request_rejected [] (fun _ => ⟨200, [], ""⟩)
    ⟨"POST", "/retrieval", some "sometok2", some 20000000⟩ "sometok2"
    20000000 (by decide) (by decide) (by decide) (by decide) rfl (by decide)
    rfl (by decide)).2

/-! ## database.py and retrieval.py: vector store and retrieval -/

/-- A stored document chunk as returned by the Chroma store: page content
plus the source metadata entry (absent when the loader recorded none). -/
structure Doc where
  page_content : String
  source : Option String
deriving DecidableEq

/-- ContentType (src/config.py lines 71-78). -/
inductive ContentType
  | NONE
  | UNKNOWN
  | TEXT
  | IMAGE
  | VIDEO
  | AUDIO
  | SPEECH
deriving DecidableEq

/-- Context (src/models.py lines 95-106). -/
structure Context where
  name : Option String
  category : Option String
  path : Option String
  type : ContentType
  matchedContent : Option String
  surroundingContent : Option (List String)
  links : Option (List String)
deriving DecidableEq

/-- VectorStoreManager.similarity_search (src/database.py lines 72-76)
delegates to the external Chroma collaborator, which returns at most k of
the stored records; the nearest-neighbour ranking lives outside this
repository and is modelled as selecting the first k stored records. -/
def similarity_search (store : List Doc) (_query : List Char) (k : Nat) :
    List Doc :=
  store.take k

/-- VectorStoreManager.clear (src/database.py lines 78-98): fetch all ids;
when there are none, return early; otherwise delete every id. Both branches
of the Python function return None — the first component records the value
the call returns, the second the resulting store contents. -/
def clear (store : List Doc) : Option Nat × List Doc :=
  if store.isEmpty then (none, store) else (none, [])

/-- Counterexample to Claim C3 as stated: clear() on the empty index does
not return the removed count 0 — it returns None (as it does on every
index; the removed count is only printed). -/
theorem clear_returns_none_not_zero : (clear []).1 ≠ some 0 := by
  decide

/-- Claim C3 as amended: clear always empties the index and returns None
(never a count); clearing an already empty (for instance freshly cleared)
index is not an error and likewise returns None, and any query after a
clear returns the empty sequence regardless of prior content. -/
theorem clear_idempotent_query_empty (store : List Doc) (query : List Char)
    (k : Nat) :
    (clear store).1 = none ∧
    (clear store).2 = [] ∧
    clear ((clear store).2) = (none, []) ∧
    similarity_search ((clear store).2) query k = [] := by
  cases store <;>
    simp [clear, similarity_search]

/-- Context construction for one document hit
(src/retrieval.py lines 24-34). -/
def doc_to_context (doc : Doc) : Context :=
  ⟨some (doc.source.getD "Unknown"), some "Research Paper", doc.source,
   ContentType.TEXT, some doc.page_content, some [], some []⟩

/-- RetrievalManager.process_retrieval_request (src/retrieval.py lines
12-36): resolve k (the caller's maxMatches when positive, else the default
3), query the store, and map each hit to a Context. The two request fields
the function reads are passed directly. -/
def process_retrieval_request (store : List Doc) (latestUserPrompt : List Char)
    (maxMatches : Int) : List Context :=
  (similarity_search store latestUserPrompt
    (if maxMatches > 0 then maxMatches.toNat else 3)).map doc_to_context

/-- Claim C7: a request with non-positive maxMatches queries the index with
k = 3 and yields at most 3 results; a request with positive maxMatches
queries the index with k = maxMatches. -/
theorem max_matches_default (store : List Doc) (prompt : List Char)
    (maxMatches : Int) :
    (maxMatches ≤ 0 →
      process_retrieval_request store prompt maxMatches
        = (similarity_search store prompt 3).map doc_to_context ∧
      (process_retrieval_request store prompt maxMatches).length ≤ 3) ∧
    (0 < maxMatches →
      process_retrieval_request store prompt maxMatches
        = (similarity_search store prompt maxMatches.toNat).map
            doc_to_context) := by
  constructor
  · intro h
    have hnot : ¬ (maxMatches > 0) := by omega
    constructor
    · simp [process_retrieval_request, hnot]
    · simp only [process_retrieval_request, hnot, if_false,
        List.length_map, similarity_search]
      exact (List.length_take_le 3 store)
  · intro h
    simp [process_retrieval_request, h]

/-- Witness for Claim C7 at a concrete index of four chunks: maxMatches 0
yields at most 3 results and maxMatches 2 queries with k = 2. -/
theorem max_matches_default_witness :
    (process_retrieval_request
      [⟨"a", none⟩, ⟨"b", none⟩, ⟨"c", none⟩, ⟨"d", none⟩] [] 0).length ≤ 3 ∧
    process_retrieval_request
      [⟨"a", none⟩, ⟨"b", none⟩, ⟨"c", none⟩, ⟨"d", none⟩] [] 2
      = (similarity_search
          [⟨"a", none⟩, ⟨"b", none⟩, ⟨"c", none⟩, ⟨"d", none⟩] [] 2).map
          doc_to_context :=
  ⟨((max_matches_default
      [⟨"a", none⟩, ⟨"b", none⟩, ⟨"c", none⟩, ⟨"d", none⟩] [] 0).1
      (by decide)).2,
   (max_matches_default
      [⟨"a", none⟩, ⟨"b", none⟩, ⟨"c", none⟩, ⟨"d", none⟩] [] 2).2
      (by decide)⟩

/-! ## api.py: the retrieve endpoint -/

/-- RetrievalRequest restricted to the fields the retrieve endpoint reads
(src/models.py lines 82-93): the optional prompt and the match bound. -/
structure RetrievalRequest where
  latestUserPrompt : Option (List Char)
  maxMatches : Int
deriving DecidableEq

/-- The retrieve endpoint (src/api.py lines 126-158): a falsy prompt (absent
or empty) raises the 400 client error; otherwise the prompt is sanitized and
the retrieval manager processes the request. -/
def retrieve (store : List Doc) (req : RetrievalRequest) :
    Except HTTPError (List Context) :=
  match req.latestUserPrompt with
  | none => .error ⟨400, "User prompt is required"⟩
  | some p =>
    if p.isEmpty then .error ⟨400, "User prompt is required"⟩
    else .ok (process_retrieval_request store (sanitize_input p) req.maxMatches)

/-- Whether the retrieve endpoint rejected the request with the 400 client
error. -/
def is_client_error : Except HTTPError (List Context) → Bool
  | .error e => e.status == 400
  | .ok _ => false

/-- Claim C9: retrieve raises 400 exactly when the prompt is absent or
empty; and since the emptiness check precedes sanitization, the non-empty
prompt consisting of less-than followed by greater-than is not rejected and
reaches the index query as the empty string after sanitization. -/
theorem retrieve_400_iff_falsy_prompt (store : List Doc)
    (req : RetrievalRequest) (maxMatches : Int) :
    (is_client_error (retrieve store req) = true ↔
      (req.latestUserPrompt = none ∨ req.latestUserPrompt = some [])) ∧
    retrieve store ⟨some [Char.ofNat 60, Char.ofNat 62], maxMatches⟩
      = .ok (process_retrieval_request store [] maxMatches) := by
  constructor
  · cases h : req.latestUserPrompt with
    | none => simp [retrieve, is_client_error, h]
    | some p =>
      cases p with
      | nil => simp [retrieve, is_client_error, h]
      | cons c cs => simp [retrieve, is_client_error, h]
  · have hsan : sanitize_input [Char.ofNat 60, Char.ofNat 62] = [] := by
      decide
    simp [retrieve, hsan]
